import Mathlib

/-!
# Verification of the pokemon-simulator-api core

Shallow embedding of the repository's core, translated from the Rust
source:

* `src/database/*.rs` — query-text generation (`sanitize`, `get_db_node`,
  `delete`, `update`), a semantic model of the graph store the generated
  queries run against, and the link layer (`is_linked_by`,
  `get_linked_by_id`).
* `src/pokemon/*.rs`, `src/trainer/mod.rs` — the domain entities
  (`PokemonType`, `Pokemon`, `Trainer`) and their reconstruction from
  store nodes (`from_db_node` / `get_first` / `get_all`).
* `src/fight/pokemon_fight.rs` — the single-encounter combat engine
  (`process_fight_with_hp`), with `f32` arithmetic modelled exactly over
  `ℚ` and the per-round random draw (`rand::random::<f32>()`, uniform in
  `[0,1)`) supplied as an explicit list of draws.
* `src/fight/mod.rs` — the selection strategies
  (`FightStrategy::choose_pokemon`), with the `usize` draw of the
  `Random` variant supplied explicitly and its divide-by-zero panic
  modelled as an error value.
* `src/fight/trainer_fight.rs` — the team orchestration
  (`trainer_fight::process_fight`).

Loops are run on explicit fuel: a `none` result means the loop had not
exited after `fuel` iterations; the source has no fuel and simply keeps
running.  The team orchestration result additionally carries a ghost
counter of how many single-encounter fights were performed; the counter
is incremented exactly where the source calls
`pokemon_fight::process_fight_with_hp` and affects nothing else.
-/

/-! ## Sanitizer and identifier emission (src/database/mod.rs, get.rs) -/

/-- Char-level body of `sanitize`: the Rust function first removes every
backslash, then prefixes every `'` and every `"` with a backslash.  After
the backslash removal the two escape passes are independent single-char
to two-char substitutions, so the sequence of `String::replace` calls is
exactly this per-character map over the backslash-free text. -/
def sanitize_chars : List Char → List Char
  | [] => []
  | c :: rest =>
      if c = '\\' then sanitize_chars rest
      else if c = '\'' then '\\' :: '\'' :: sanitize_chars rest
      else if c = '"' then '\\' :: '"' :: sanitize_chars rest
      else c :: sanitize_chars rest

/-- Embeds `sanitize` from `src/database/mod.rs`: strip backslashes, escape
single and double quotes. -/
def sanitize (s : String) : String :=
  ⟨sanitize_chars s.data⟩

/-- Accumulating decimal evaluation of a digit run; `none` on the first
non-digit character. -/
def digits_core (acc : Nat) : List Char → Option Nat
  | [] => some acc
  | c :: rest =>
      if c.isDigit then digits_core (acc * 10 + (c.toNat - '0'.toNat)) rest else none

/-- Value of a non-empty all-digit character list. -/
def digits_value : List Char → Option Nat
  | [] => none
  | cs => digits_core 0 cs

/-- The characters of a numeric literal candidate: Rust's
`u64::from_str` accepts one optional leading `+` sign. -/
def drop_sign : List Char → List Char
  | [] => []
  | c :: rest => if c = '+' then rest else c :: rest

/-- Model of Rust's `str::parse::<u64>()` succeeding: an optional leading
`+`, then at least one ASCII digit, and the value fits in a `u64`. -/
def parses_as_u64 (s : String) : Bool :=
  match digits_value (drop_sign s.data) with
  | some n => n ≤ 2 ^ 64 - 1
  | none => false

/-- The identifier emission of `get_db_node` (src/database/get.rs): the
value is left as-is when it parses as a `u64`, otherwise it is sanitized
and wrapped in single quotes. -/
def get_db_node_ident_emission (ident : String) : String :=
  if parses_as_u64 ident then ident else "'" ++ sanitize ident ++ "'"

/-- Query text built by `get_db_node` (src/database/get.rs, lines 14-21). -/
def get_db_node_query (kind id_name ident : String) : String :=
  "MATCH (n:" ++ kind ++ ") WHERE n." ++ id_name ++ " = " ++
    get_db_node_ident_emission ident ++ " RETURN n;"

/-- Query text built by `DbDelete::delete` (src/database/delete.rs): the
identifier is sanitized but never quoted, numeric or not. -/
def delete_query (kind id_field ident : String) : String :=
  "MATCH (n:" ++ kind ++ ") WHERE n." ++ id_field ++ " = " ++
    sanitize ident ++ " DELETE n;"

/-- Query text built by `DbUpdate::update` (src/database/update.rs): the
identifier is embedded verbatim, with no sanitization and no quoting. -/
def update_query (kind id_field ident update_args : String) : String :=
  "MATCH (n:" ++ kind ++ ") WHERE n." ++ id_field ++ " = " ++ ident ++
    " SET " ++ update_args

/-- Identifier emission required by the specification (§6): always
sanitized; unquoted exactly when the value parses as a number.  (On a
digit string `sanitize` is the identity, so the numeric arm needs no
quotes and no escapes.) -/
def spec_ident_emission (ident : String) : String :=
  if parses_as_u64 ident then sanitize ident else "'" ++ sanitize ident ++ "'"

/-! ## Semantic model of the graph store

The generated query texts run against an external Cypher store.  The
model interprets exactly the query shapes the repository issues, at the
level of the parameters spliced into them: nodes carry a kind (label) and
a property map, edges are labelled and directed.  A `WHERE n.f = v`
comparison matches the property `f` against the literal the query text
would carry: a number when the identifier parses as `u64`, the string
itself otherwise. -/

/-- A property value stored on a node (the repository only stores strings
and unsigned integers). -/
inductive PropVal where
  | str (s : String)
  | num (n : Nat)
deriving DecidableEq, Repr

/-- A store node: a label (`DB_NODE_KIND`) plus properties. -/
structure DbNode where
  kind : String
  props : List (String × PropVal)
deriving DecidableEq, Repr

/-- The graph store: nodes, and labelled directed edges between them. -/
structure GraphStore where
  nodes : List DbNode
  edges : List (DbNode × String × DbNode)
deriving DecidableEq, Repr

/-- The literal value an identifier denotes inside generated query text. -/
def ident_prop_val (ident : String) : PropVal :=
  match digits_value (drop_sign ident.data) with
  | some n => if n ≤ 2 ^ 64 - 1 then .num n else .str ident
  | none => .str ident

/-- Does node `n` match `MATCH (n:kind) WHERE n.field = ident`? -/
def node_matches (n : DbNode) (kind field ident : String) : Bool :=
  n.kind == kind &&
    (match n.props.find? (fun p => p.1 == field) with
     | some p => p.2 == ident_prop_val ident
     | none => false)

/-- Embeds `node.get::<String>(field)` of neo4rs: the property must exist and be
a string. -/
def node_get_str (n : DbNode) (field : String) : Except String String :=
  match n.props.find? (fun p => p.1 == field) with
  | some (_, .str s) => .ok s
  | some (_, .num _) => .error "property type mismatch"
  | none => .error "no such property"

/-- Embeds `node.get::<u32>(field)` of neo4rs: the property must exist and be a
number. -/
def node_get_num (n : DbNode) (field : String) : Except String Nat :=
  match n.props.find? (fun p => p.1 == field) with
  | some (_, .num v) => .ok v
  | some (_, .str _) => .error "property type mismatch"
  | none => .error "no such property"

/-- Semantics of `get_db_node` (src/database/get.rs): run the generated
`MATCH … RETURN n;` and take the first row; zero rows is the
`"No rows"` error. -/
def get_db_node (store : GraphStore) (id_name kind ident : String) :
    Except String DbNode :=
  match (store.nodes.filter (fun n => node_matches n kind id_name ident)).head? with
  | some n => .ok n
  | none => .error "No rows"

/-- Does the store contain a node matching kind/field/ident?  (I.e. does
the keyed read return at least one row.) -/
def has_matching_node (store : GraphStore) (kind field ident : String) : Bool :=
  store.nodes.any (fun n => node_matches n kind field ident)

/-- Is there a `rel`-labelled edge from node `a` to node `b`? -/
def edge_exists (store : GraphStore) (a : DbNode) (rel : String) (b : DbNode) : Bool :=
  store.edges.any (fun e => e.1 == a && e.2.1 == rel && e.2.2 == b)

/-- Rows produced by the query `is_linked_by` issues
(src/database/link.rs, lines 118-127):
`MATCH (a:K1), (b:K2) WHERE a.f1 = v1 AND b.f2 = v2
 RETURN exists((a)-[:rel]->(b));`
— one row per matching `(a, b)` node pair, carrying the boolean value of
the `exists(…)` expression. -/
def exists_query_rows (store : GraphStore)
    (a_kind a_field a_ident b_kind b_field b_ident rel : String) : List Bool :=
  (store.nodes.filter (fun a => node_matches a a_kind a_field a_ident)).flatMap
    (fun a => (store.nodes.filter (fun b => node_matches b b_kind b_field b_ident)).map
      (fun b => edge_exists store a rel b))

/-- Embeds `DbLink::is_linked_by` (src/database/link.rs, lines 107-135): the
function runs the `exists(…)` query and returns
`q_res.next().await?.is_some()` — i.e. whether at least one row came
back.  The boolean carried by the row is never inspected. -/
def is_linked_by (store : GraphStore)
    (a_kind a_field a_ident b_kind b_field b_ident rel : String) : Bool :=
  !(exists_query_rows store a_kind a_field a_ident b_kind b_field b_ident rel).isEmpty

/-- Semantics of `get_linked_by_id` (src/database/link.rs, lines 160-191)
followed by `promise_from_node` for each returned node: collect the
targets of `rel`-labelled edges out of the node matching
`(a:a_kind { a_field : ident })` into `b_kind` nodes, and read each
target's identifier field (the `unwrap` in `promise_from_node` panics
when the field is missing; the panic is modelled as an error). -/
def promise_idents_linked (store : GraphStore)
    (a_kind a_field a_ident rel b_kind b_id_field : String) :
    Except String (List String) :=
  (store.edges.filterMap
      (fun e => if node_matches e.1 a_kind a_field a_ident && e.2.1 == rel
                    && e.2.2.kind == b_kind then some e.2.2 else none)).mapM
    (fun b => match node_get_str b b_id_field with
      | .ok i => .ok i
      | .error _ => .error "panicked: promise_from_node on a node without its identifier field")

/-! ## Domain entities (src/pokemon/stats.rs, ptype.rs, mod.rs, trainer/mod.rs)

A `Promise<T>` carries only the target's identifier (plus a phantom
kind), so it is embedded as the identifier `String`.  The
`strong_against` / `weak_against` vectors hold `MaybePromise` values of
which `is_strong_against` / `is_weak_against` observe only `.ident()`;
each entry is embedded as that identifier. -/

/-- Embeds `PokemonStats` (src/pokemon/stats.rs); all four stats are `u32`. -/
structure PokemonStats where
  hp : Nat
  attack : Nat
  defense : Nat
  agility : Nat
deriving DecidableEq, Repr

/-- Embeds `PokemonType` (src/pokemon/ptype.rs). -/
structure PokemonType where
  name : String
  strong_against : List String
  weak_against : List String
deriving DecidableEq, Repr

/-- Embeds `PokemonType::is_strong_against`: some stored relation's identifier
equals the other type's name. -/
def PokemonType.is_strong_against (self other : PokemonType) : Bool :=
  self.strong_against.any (fun t => t == other.name)

/-- Embeds `PokemonType::is_weak_against`. -/
def PokemonType.is_weak_against (self other : PokemonType) : Bool :=
  self.weak_against.any (fun t => t == other.name)

/-- Embeds `Pokemon` (src/pokemon/mod.rs); the type fields are promises, i.e.
identifiers of `PokemonType` nodes. -/
structure Pokemon where
  name : String
  primary_type : String
  secondary_type : Option String
  stats : PokemonStats
deriving DecidableEq, Repr

/-- Embeds `Trainer` (src/trainer/mod.rs); the team is a vector of promises of
`Pokemon`. -/
structure Trainer where
  name : String
  team : List String
deriving DecidableEq, Repr

/-! ## Reconstruction from the store (`from_db_node` / `get_first` / `get_all`) -/

/-- Embeds `PokemonType::from_db_node` (src/pokemon/ptype.rs, lines 130-146):
read the name, then collect the `StrongAgainst` and `WeakAgainst`
targets as promises. -/
def type_from_db_node (store : GraphStore) (node : DbNode) :
    Except String PokemonType := do
  let name ← node_get_str node "name"
  let strong ← promise_idents_linked store "PokemonType" "name" name "StrongAgainst" "PokemonType" "name"
  let weak ← promise_idents_linked store "PokemonType" "name" name "WeakAgainst" "PokemonType" "name"
  .ok { name := name, strong_against := strong, weak_against := weak }

/-- Embeds `PokemonType::get_first` / `Promise::<PokemonType>::resolve`
(src/database/get.rs `get_first` with `DB_NODE_KIND = "PokemonType"`,
`DB_IDENTIFIER_FIELD = "name"`). -/
def PokemonType.get_first (store : GraphStore) (ident : String) :
    Except String PokemonType := do
  let node ← get_db_node store "name" "PokemonType" ident
  type_from_db_node store node

/-- Embeds `Pokemon::from_db_node` (src/pokemon/mod.rs, lines 160-192): read the
name, take the first `PrimaryType`-linked promise (erroring when there is
none), the first `SecondaryType`-linked promise if any, then the four
stats. -/
def pokemon_from_db_node (store : GraphStore) (node : DbNode) :
    Except String Pokemon := do
  let identifier ← node_get_str node "name"
  let prim_list ← promise_idents_linked store "Pokemon" "name" identifier "PrimaryType" "PokemonType" "name"
  let primary_type ← match prim_list.head? with
    | some p => Except.ok p
    | none => Except.error "No primary type found for Pokemon"
  let sec_list ← promise_idents_linked store "Pokemon" "name" identifier "SecondaryType" "PokemonType" "name"
  let hp ← node_get_num node "hp"
  let attack ← node_get_num node "attack"
  let defense ← node_get_num node "defense"
  let agility ← node_get_num node "agility"
  .ok { name := identifier, primary_type := primary_type,
        secondary_type := sec_list.head?,
        stats := { hp := hp, attack := attack, defense := defense, agility := agility } }

/-- Embeds `Pokemon::get_first` / `Promise::<Pokemon>::resolve`. -/
def Pokemon.get_first (store : GraphStore) (ident : String) :
    Except String Pokemon := do
  let node ← get_db_node store "name" "Pokemon" ident
  pokemon_from_db_node store node

/-- Embeds `DbGet::get_all` for `PokemonType` (src/database/get.rs, lines
75-102): every node of the kind, reconstructed in store order. -/
def PokemonType.get_all (store : GraphStore) : Except String (List PokemonType) :=
  (store.nodes.filter (fun n => n.kind == "PokemonType")).mapM (type_from_db_node store)

/-- Embeds `DbGet::get_all` for `Pokemon`. -/
def Pokemon.get_all (store : GraphStore) : Except String (List Pokemon) :=
  (store.nodes.filter (fun n => n.kind == "Pokemon")).mapM (pokemon_from_db_node store)

/-! ## Exact model of the `f32` computations of the combat engine

The engine computes over `f32`; the embedding computes the same
expressions exactly over `ℚ`.  `f32::round` rounds to the nearest
integer with halves away from zero; an `f32`-to-`u32` `as`-cast
truncates toward zero and saturates at the bounds of `u32`. -/

/-- Embeds `f32::round`: nearest integer, halves away from zero. -/
def rust_round (q : ℚ) : ℤ :=
  if q < 0 then -(⌊-q + 1 / 2⌋) else ⌊q + 1 / 2⌋

/-- Embeds `x.round() as u32`: round, then saturate into `u32` (negative values
become `0`, values above `u32::MAX` become `u32::MAX`). -/
def u32_of_round (q : ℚ) : ℕ :=
  min (rust_round q).toNat (2 ^ 32 - 1)

/-- Embeds `x as u32` on an `f32`: truncate toward zero, then saturate. -/
def u32_of_trunc (q : ℚ) : ℕ :=
  min ⌊q⌋.toNat (2 ^ 32 - 1)

/-! ## Single-encounter combat engine (src/fight/pokemon_fight.rs) -/

/-- Modelled from the spec: the `Effectiveness` enum is constructed by
`process_fight_with_hp` (src/fight/pokemon_fight.rs, lines 126-130) but
its declaration is not under src/; the spec lists the three buckets
super-effective / not-very-effective / normal. -/
inductive Effectiveness where
  | SuperEffective
  | NotVeryEffective
  | Normal
deriving DecidableEq, Repr

/-- Embeds `FightEvent` (src/fight/mod.rs, lines 20-58).  The `Hit` variant
carries the `effectiveness` field exactly as constructed by
`process_fight_with_hp` (src/fight/pokemon_fight.rs, lines 141-147). -/
inductive FightEvent where
  | ChoosePokemon (trainer pokemon : String)
  | Hit (attacker defender : String) (damage hp_left : Nat)
      (effectiveness : Effectiveness)
  | Fainted (pokemon : String)
  | PokemonWinner (pokemon : String) (hp_left : Nat)
  | Winner (trainer : String) (pokemon_left : List String)
deriving DecidableEq, Repr

/-- Embeds `FightLog` (src/fight/mod.rs, lines 61-66). -/
structure FightLog where
  contender_name : String
  challenger_name : String
  log : List FightEvent
deriving DecidableEq, Repr

/-- The type damage multiplier of one round
(src/fight/pokemon_fight.rs, lines 85-121): start at `1.0`, then the
four pairwise checks in source order.  Note the orientation of the last
two checks: when the defender's type is strong against the attacker's
secondary type the multiplier goes DOWN by `0.225`, and when it is weak
against it the multiplier goes UP by `0.375`. -/
def damage_mult_of (atk_ptype : PokemonType) (atk_stype : Option PokemonType)
    (def_ptype : PokemonType) (def_stype : Option PokemonType) : ℚ :=
  let m : ℚ := 1
  let m := if atk_ptype.is_strong_against def_ptype then m + 0.375
    else if atk_ptype.is_weak_against def_ptype then m - 0.225 else m
  let m := match def_stype with
    | some ds =>
        if atk_ptype.is_strong_against ds then m + 0.375
        else if atk_ptype.is_weak_against ds then m - 0.225 else m
    | none => m
  let m := match atk_stype with
    | some sa =>
        if def_ptype.is_strong_against sa then m - 0.225
        else if def_ptype.is_weak_against sa then m + 0.375 else m
    | none => m
  let m := match atk_stype, def_stype with
    | some sa, some ds =>
        if ds.is_strong_against sa then m - 0.225
        else if ds.is_weak_against sa then m + 0.375 else m
    | _, _ => m
  m

/-- Modelled from the spec: the multiplier the claim and §4.4 describe —
"each check adds 0.375 if the FIRST type is strong-against the second,
subtracts 0.225 if weak-against", over the four pairs
attacker-primary/defender-primary, attacker-primary/defender-secondary,
defender-primary/attacker-secondary, defender-secondary/
attacker-secondary. -/
def spec_damage_mult (atk_ptype : PokemonType) (atk_stype : Option PokemonType)
    (def_ptype : PokemonType) (def_stype : Option PokemonType) : ℚ :=
  let m : ℚ := 1
  let m := if atk_ptype.is_strong_against def_ptype then m + 0.375
    else if atk_ptype.is_weak_against def_ptype then m - 0.225 else m
  let m := match def_stype with
    | some ds =>
        if atk_ptype.is_strong_against ds then m + 0.375
        else if atk_ptype.is_weak_against ds then m - 0.225 else m
    | none => m
  let m := match atk_stype with
    | some sa =>
        if def_ptype.is_strong_against sa then m + 0.375
        else if def_ptype.is_weak_against sa then m - 0.225 else m
    | none => m
  let m := match atk_stype, def_stype with
    | some sa, some ds =>
        if ds.is_strong_against sa then m + 0.375
        else if ds.is_weak_against sa then m - 0.225 else m
    | _, _ => m
  m

/-- The effectiveness classification
(src/fight/pokemon_fight.rs, lines 126-130). -/
def effectiveness_of (m : ℚ) : Effectiveness :=
  if m > 1.8 then .SuperEffective
  else if m < 0.6 then .NotVeryEffective
  else .Normal

/-- The per-round random multiplier
(src/fight/pokemon_fight.rs, line 133): `0.8 + rand * 0.4` where `rand`
is the raw draw in `[0,1)`. -/
def rand_mult_of (r : ℚ) : ℚ := 0.8 + r * 0.4

/-- The defense multiplier (src/fight/pokemon_fight.rs, line 135):
`1.0 - ((defense as f32 / 100.0) * 0.5)`. -/
def defense_mult_of (defense : Nat) : ℚ :=
  1 - ((defense : ℚ) / 100) * 0.5

/-- The damage of one round (src/fight/pokemon_fight.rs, line 137). -/
def round_damage (attack : Nat) (m rand_mult defense_mult : ℚ) : ℚ :=
  (((attack : ℚ) * m) * rand_mult) * defense_mult

/-- The `hp_left` recorded in a `Hit` event
(src/fight/pokemon_fight.rs, line 145): `max(def_hp.round() as u32, 0)`
after `def_hp -= damage`. -/
def hit_hp_left (def_hp : Nat) (damage : ℚ) : Nat :=
  max (u32_of_round ((def_hp : ℚ) - damage)) 0

/-- The eight per-round bindings picked in the loop head of
`process_fight_with_hp` (src/fight/pokemon_fight.rs, lines 60-83). -/
structure RoundSides where
  attacker : Pokemon
  atk_ptype : PokemonType
  atk_stype : Option PokemonType
  atk_hp : Nat
  defender : Pokemon
  def_ptype : PokemonType
  def_stype : Option PokemonType
  def_hp : Nat

/-- The eight bindings picked at the top of each round: the attacker is
the side the `last_to_attack` value does NOT equal the challenger for —
i.e. when `last_to_attack == challenger` the contender attacks
(src/fight/pokemon_fight.rs, lines 60-83). -/
def round_sides (contender challenger : Pokemon)
    (contender_primary_type : PokemonType)
    (contender_secondary_type : Option PokemonType)
    (challenger_primary_type : PokemonType)
    (challenger_secondary_type : Option PokemonType)
    (contender_hp challenger_hp : Nat) (last_to_attack : Pokemon) : RoundSides :=
  if last_to_attack = challenger then
    ⟨contender, contender_primary_type, contender_secondary_type, contender_hp,
     challenger, challenger_primary_type, challenger_secondary_type, challenger_hp⟩
  else
    ⟨challenger, challenger_primary_type, challenger_secondary_type, challenger_hp,
     contender, contender_primary_type, contender_secondary_type, contender_hp⟩

/-- One round of the encounter loop
(src/fight/pokemon_fight.rs, lines 60-174): the emitted events, the new
`contender_hp`, the new `challenger_hp`, and the new `last_to_attack`.
`r` is this round's raw random draw. -/
def fight_round (contender challenger : Pokemon)
    (contender_primary_type : PokemonType)
    (contender_secondary_type : Option PokemonType)
    (challenger_primary_type : PokemonType)
    (challenger_secondary_type : Option PokemonType)
    (contender_hp challenger_hp : Nat) (last_to_attack : Pokemon) (r : ℚ) :
    List FightEvent × Nat × Nat × Pokemon :=
  let s := round_sides contender challenger contender_primary_type
    contender_secondary_type challenger_primary_type challenger_secondary_type
    contender_hp challenger_hp last_to_attack
  let m := damage_mult_of s.atk_ptype s.atk_stype s.def_ptype s.def_stype
  let eff := effectiveness_of m
  let damage := round_damage s.attacker.stats.attack m
    (rand_mult_of r) (defense_mult_of s.defender.stats.defense)
  let def_hp' : ℚ := (s.def_hp : ℚ) - damage
  let events :=
    if def_hp' ≤ 0 then
      [FightEvent.Hit s.attacker.name s.defender.name (u32_of_trunc damage)
         (hit_hp_left s.def_hp damage) eff,
       FightEvent.Fainted s.defender.name,
       FightEvent.PokemonWinner s.attacker.name (u32_of_round (s.atk_hp : ℚ))]
    else
      [FightEvent.Hit s.attacker.name s.defender.name (u32_of_trunc damage)
         (hit_hp_left s.def_hp damage) eff]
  let hps :=
    if s.attacker = challenger then (u32_of_round def_hp', u32_of_round (s.atk_hp : ℚ))
    else (u32_of_round (s.atk_hp : ℚ), u32_of_round def_hp')
  (events, hps.1, hps.2, s.attacker)

/-- The `while contender_hp > 0 && challenger_hp > 0` loop of
`process_fight_with_hp` (src/fight/pokemon_fight.rs, lines 59-175), on
fuel.  `none` means the loop was still running after `fuel` rounds;
otherwise the accumulated event list and the unconsumed random draws are
returned.  `last_to_attack` enters as `starting_pokemon` (line 51). -/
def fight_loop (contender challenger : Pokemon)
    (contender_primary_type : PokemonType)
    (contender_secondary_type : Option PokemonType)
    (challenger_primary_type : PokemonType)
    (challenger_secondary_type : Option PokemonType) :
    Nat → Nat → Nat → Pokemon → List ℚ → List FightEvent →
    Option (List FightEvent × List ℚ)
  | 0, contender_hp, challenger_hp, _, rands, acc =>
      if 0 < contender_hp ∧ 0 < challenger_hp then none else some (acc, rands)
  | fuel + 1, contender_hp, challenger_hp, last_to_attack, rands, acc =>
      if 0 < contender_hp ∧ 0 < challenger_hp then
        let out := fight_round contender challenger contender_primary_type
          contender_secondary_type challenger_primary_type challenger_secondary_type
          contender_hp challenger_hp last_to_attack (rands.headD 0)
        fight_loop contender challenger contender_primary_type contender_secondary_type
          challenger_primary_type challenger_secondary_type
          fuel out.2.1 out.2.2.1 out.2.2.2 rands.tail (acc ++ out.1)
      else some (acc, rands)

/-- Resolution of an optional secondary type
(src/fight/pokemon_fight.rs, lines 40-43). -/
def resolve_secondary (store : GraphStore) : Option String →
    Except String (Option PokemonType)
  | some ident => (PokemonType.get_first store ident).map some
  | none => .ok none

/-- Embeds `process_fight_with_hp` (src/fight/pokemon_fight.rs, lines 27-178):
pick the starting pokemon by agility (ties to the challenger), resolve
the four type promises, then run the round loop.  Returns the remaining
random draws alongside the log so that callers consuming one global RNG
can be composed. -/
def process_fight_with_hp (store : GraphStore) (contender challenger : Pokemon)
    (contender_hp challenger_hp : Nat) (rands : List ℚ) (fuel : Nat) :
    Except String (Option (FightLog × List ℚ)) := do
  let starting_pokemon :=
    if contender.stats.agility > challenger.stats.agility then contender else challenger
  let contender_primary_type ← PokemonType.get_first store contender.primary_type
  let contender_secondary_type ← resolve_secondary store contender.secondary_type
  let challenger_primary_type ← PokemonType.get_first store challenger.primary_type
  let challenger_secondary_type ← resolve_secondary store challenger.secondary_type
  .ok ((fight_loop contender challenger contender_primary_type contender_secondary_type
      challenger_primary_type challenger_secondary_type
      fuel contender_hp challenger_hp starting_pokemon rands []).map
    (fun p => ({ contender_name := contender.name, challenger_name := challenger.name,
                 log := p.1 }, p.2)))

/-- Embeds `process_fight` (src/fight/pokemon_fight.rs, lines 181-186): start
each side at its own max HP. -/
def process_fight (store : GraphStore) (contender challenger : Pokemon)
    (rands : List ℚ) (fuel : Nat) : Except String (Option (FightLog × List ℚ)) :=
  process_fight_with_hp store contender challenger
    contender.stats.hp challenger.stats.hp rands fuel

/-! ## Selection strategies (src/fight/mod.rs) -/

/-- Embeds `FightStrategy` (src/fight/mod.rs, lines 70-86). -/
inductive FightStrategy where
  | StrongestAtk
  | StrongestDef
  | StrongestSum
  | StrongestType
  | Random
deriving DecidableEq, Repr

/-- Rust's `Iterator::max_by_key`: the maximal element, the LAST one on
ties. -/
def max_by_key_last (key : Pokemon → Nat) : List Pokemon → Option Pokemon
  | [] => none
  | p :: ps =>
      match max_by_key_last key ps with
      | none => some p
      | some q => if key q < key p then some p else some q

/-- The `for pokemon in team.iter()` search of
`FightStrategy::StrongestType` (src/fight/mod.rs, lines 143-213), with
the enemy's resolved types fixed.  A failed resolution of a candidate's
primary type is a `continue`; the early `return Some(...)` sites and the
`continue` sites appear in source order. -/
def strongest_type_search (store : GraphStore)
    (enemy_primary_type enemy_secondary_type : Option PokemonType) :
    List Pokemon → Option Pokemon
  | [] => none
  | pokemon :: rest =>
      match (PokemonType.get_first store pokemon.primary_type).toOption with
      | none => strongest_type_search store enemy_primary_type enemy_secondary_type rest
      | some own_primary_type =>
          let own_secondary_type := match pokemon.secondary_type with
            | some t => (PokemonType.get_first store t).toOption
            | none => none
          if (match enemy_primary_type, enemy_secondary_type with
              | some ep, some es => own_primary_type.is_strong_against ep
                  && own_primary_type.is_strong_against es
              | some ep, none => own_primary_type.is_strong_against ep
              | none, _ => false) then some pokemon
          else if (match enemy_secondary_type with
              | some es => own_primary_type.is_strong_against es
              | none => false) then some pokemon
          else if (match own_secondary_type with
              | some os =>
                  (match enemy_primary_type with
                   | some ep => os.is_strong_against ep
                   | none => false)
                  || (match enemy_secondary_type with
                      | some es => os.is_strong_against es
                      | none => false)
              | none => false) then some pokemon
          else if (match enemy_primary_type with
                | some ep => own_primary_type.is_weak_against ep
                | none => false)
              || (match enemy_secondary_type with
                  | some es => own_primary_type.is_weak_against es
                  | none => false)
              || (match own_secondary_type with
                  | some os =>
                      (match enemy_primary_type with
                       | some ep => os.is_weak_against ep
                       | none => false)
                      || (match enemy_secondary_type with
                          | some es => os.is_weak_against es
                          | none => false)
                  | none => false) then
            strongest_type_search store enemy_primary_type enemy_secondary_type rest
          else some pokemon

/-- Embeds `FightStrategy::choose_pokemon` (src/fight/mod.rs, lines 103-225).
`r` models the `rand::random::<usize>()` draw of the `Random` variant;
its `% team.len()` with an empty team is a divide-by-zero panic, modelled
as an error value. -/
def FightStrategy.choose_pokemon (strat : FightStrategy) (store : GraphStore)
    (team : List Pokemon) (enemy_pokemon : Option Pokemon) (r : Nat) :
    Except String (Option Pokemon) :=
  match strat with
  | .StrongestAtk => .ok (max_by_key_last (fun p => p.stats.attack) team)
  | .StrongestDef => .ok (max_by_key_last (fun p => p.stats.defense) team)
  | .StrongestSum => .ok (max_by_key_last (fun p => p.stats.attack + p.stats.defense) team)
  | .StrongestType =>
      match enemy_pokemon with
      | none => .ok (max_by_key_last (fun p => p.stats.attack + p.stats.defense) team)
      | some e =>
          let enemy_primary_type := (PokemonType.get_first store e.primary_type).toOption
          let enemy_secondary_type := match e.secondary_type with
            | some t => (PokemonType.get_first store t).toOption
            | none => none
          match strongest_type_search store enemy_primary_type enemy_secondary_type team with
          | some p => .ok (some p)
          | none => .ok (max_by_key_last (fun p => p.stats.attack + p.stats.defense) team)
  | .Random =>
      if team.length = 0 then
        .error "panicked: attempt to calculate the remainder with a divisor of zero"
      else .ok (team.get? (r % team.length))

/-! ## Team orchestration (src/fight/trainer_fight.rs) -/

/-- Embeds `process_victory` (src/fight/trainer_fight.rs, lines 6-11). -/
def process_victory (winner_name : String) (winner_team : List Pokemon) : FightEvent :=
  .Winner winner_name (winner_team.map (fun p => p.name))

/-- Resolution of a trainer's team of promises
(src/fight/trainer_fight.rs, lines 21-25). -/
def resolve_team (store : GraphStore) : List String → Except String (List Pokemon)
  | [] => .ok []
  | i :: rest => do
      let p ← Pokemon.get_first store i
      let ps ← resolve_team store rest
      .ok (p :: ps)

/-- The `while !challenger_team.is_empty() && !contender_team.is_empty()`
loop of `trainer_fight::process_fight` (src/fight/trainer_fight.rs,
lines 67-171), on fuel.  The final `Nat` is the ghost count of
single-encounter fights performed so far.  Note:
* the inner fight is called as
  `process_fight_with_hp(chal_poke, cont_poke, challenger_hp, contender_hp)`,
  so the outer challenger's pokemon is the inner "contender";
* `fight_log.log.len() - 2` underflows on logs shorter than two events
  (release-mode wrap-around makes the `.get` return `None`), modelled by
  the length guard;
* the `process_victory` pushes sit under `if challenger_team.is_empty()`
  (resp. `contender_team.is_empty()`) checks inside a loop whose
  condition guarantees both teams are non-empty. -/
def trainer_fight_loop (store : GraphStore) (challenger contender : Trainer)
    (challenger_strat contender_strat : FightStrategy) :
    Nat → List Pokemon → List Pokemon → Option Pokemon → Option Pokemon →
    Nat → Nat → List FightEvent → List ℚ → List Nat → Nat →
    Except String (Option (List FightEvent × Nat))
  | 0, challenger_team, contender_team, _, _, _, _, acc, _, _, fights =>
      if !challenger_team.isEmpty && !contender_team.isEmpty then .ok none
      else .ok (some (acc, fights))
  | fuel + 1, challenger_team, contender_team, challenger_pokemon, contender_pokemon,
      challenger_hp, contender_hp, acc, rands, urands, fights =>
      if !challenger_team.isEmpty && !contender_team.isEmpty then
        match challenger_pokemon, contender_pokemon with
        | some chal_poke, none =>
            let acc := if challenger_team.isEmpty
              then acc ++ [process_victory contender.name contender_team] else acc
            match contender_strat.choose_pokemon store contender_team (some chal_poke)
                (urands.headD 0) with
            | .error e => .error e
            | .ok none => .error "Contender's strategy produced no valid pokemon"
            | .ok (some p) =>
                trainer_fight_loop store challenger contender challenger_strat contender_strat
                  fuel challenger_team contender_team (some chal_poke) (some p)
                  challenger_hp contender_hp
                  (acc ++ [FightEvent.ChoosePokemon contender.name p.name])
                  rands urands.tail fights
        | none, some cont_poke =>
            let acc := if contender_team.isEmpty
              then acc ++ [process_victory challenger.name challenger_team] else acc
            match challenger_strat.choose_pokemon store challenger_team (some cont_poke)
                (urands.headD 0) with
            | .error e => .error e
            | .ok none => .error "Challenger's strategy produced no valid pokemon"
            | .ok (some p) =>
                trainer_fight_loop store challenger contender challenger_strat contender_strat
                  fuel challenger_team contender_team (some p) (some cont_poke)
                  challenger_hp contender_hp
                  (acc ++ [FightEvent.ChoosePokemon challenger.name p.name])
                  rands urands.tail fights
        | none, none => .error "Both pokemon are fainted, which should not be possible"
        | some chal_poke, some cont_poke =>
            match process_fight_with_hp store chal_poke cont_poke
                challenger_hp contender_hp rands fuel with
            | .error e => .error e
            | .ok none => .ok none
            | .ok (some (flog, rands')) =>
                let events := flog.log
                let pre_last := if 2 ≤ events.length
                  then events.get? (events.length - 2) else none
                match pre_last with
                | none => .error "No fight events returned from pokemon fight"
                | some (FightEvent.Fainted fainted) =>
                    let upd :=
                      if chal_poke.name = fainted then
                        (challenger_team.filter (fun p => p.name != fainted),
                         contender_team, true, false)
                      else if cont_poke.name = fainted then
                        (challenger_team,
                         contender_team.filter (fun p => p.name != fainted), false, true)
                      else (challenger_team, contender_team, false, false)
                    match events.getLast? with
                    | some (FightEvent.PokemonWinner wname w_hp_left) =>
                        let challenger_hp' := if chal_poke.name = wname then w_hp_left
                          else challenger_hp
                        let contender_hp' := if chal_poke.name = wname then contender_hp
                          else if cont_poke.name = wname then w_hp_left else contender_hp
                        let next :=
                          if upd.2.2.1 then (none, some cont_poke)
                          else if upd.2.2.2 then (some chal_poke, none)
                          else (some chal_poke, some cont_poke)
                        trainer_fight_loop store challenger contender
                          challenger_strat contender_strat
                          fuel upd.1 upd.2.1 next.1 next.2 challenger_hp' contender_hp'
                          (acc ++ events) rands' urands (fights + 1)
                    | some _ => .error "The last fight event was not a pokemon winner event"
                    | none => .error "No fight events returned from pokemon fight"
                | some _ => .error "The pre-last fight event was not a fainted event"
      else .ok (some (acc, fights))

/-- Embeds `trainer_fight::process_fight` (src/fight/trainer_fight.rs, lines
14-174): resolve both teams, let the contender choose first (no enemy
information), then the challenger (knowing the contender's pick), then
run the encounter loop.  The second component of a successful result is
the ghost count of single-encounter fights performed. -/
def trainer_process_fight (store : GraphStore) (challenger contender : Trainer)
    (challenger_strat contender_strat : FightStrategy)
    (rands : List ℚ) (urands : List Nat) (fuel : Nat) :
    Except String (Option (FightLog × Nat)) := do
  let challenger_team ← resolve_team store challenger.team
  let contender_team ← resolve_team store contender.team
  match contender_strat.choose_pokemon store contender_team none (urands.headD 0) with
  | .error e => .error e
  | .ok none => .error "Contender's strategy produced no valid pokemon"
  | .ok (some contender_poke) =>
      match challenger_strat.choose_pokemon store challenger_team (some contender_poke)
          (urands.tail.headD 0) with
      | .error e => .error e
      | .ok none => .error "Challenger's strategy produced no valid pokemon"
      | .ok (some challenger_poke) =>
          let acc := [FightEvent.ChoosePokemon contender.name contender_poke.name,
                      FightEvent.ChoosePokemon challenger.name challenger_poke.name]
          (trainer_fight_loop store challenger contender challenger_strat contender_strat
              fuel challenger_team contender_team (some challenger_poke) (some contender_poke)
              challenger_poke.stats.hp contender_poke.stats.hp acc
              rands urands.tail.tail 0).map
            (Option.map (fun p =>
              ({ contender_name := contender.name, challenger_name := challenger.name,
                 log := p.1 }, p.2)))

/-! ## Event shape predicates (used to state log properties) -/

/-- Is this event a `Hit`? -/
def is_hit_event : FightEvent → Bool
  | .Hit _ _ _ _ _ => true
  | _ => false

/-- Is this event a `Fainted`? -/
def is_fainted_event : FightEvent → Bool
  | .Fainted _ => true
  | _ => false

/-- Is this event a `PokemonWinner`? -/
def is_pokemon_winner_event : FightEvent → Bool
  | .PokemonWinner _ _ => true
  | _ => false

/-- Is this event a trainer `Winner`? -/
def is_winner_event : FightEvent → Bool
  | .Winner _ _ => true
  | _ => false

/-! ## Concrete fixtures

Small stores, pokemon and trainers used to evaluate the embedded
functions at specific inputs.  The type `"T"` has no relations, so every
fight over it has type multiplier `1`. -/

/-- A relation-free pokemon type node. -/
def n_type_t : DbNode := ⟨"PokemonType", [("name", PropVal.str "T")]⟩

/-- The resolved relation-free type. -/
def t_plain : PokemonType := ⟨"T", [], []⟩

/-- Store node for the type `"Electric"` (no relations). -/
def n_electric : DbNode := ⟨"PokemonType", [("name", PropVal.str "Electric")]⟩

/-- Store node for the type `"Water"` (no relations). -/
def n_water : DbNode := ⟨"PokemonType", [("name", PropVal.str "Water")]⟩

/-- Store holding the `"Electric"` and `"Water"` type nodes. -/
def store_ew : GraphStore := ⟨[n_electric, n_water], []⟩

/-- The spec's §8 Electric creature: stats hp 35, atk 55, def 40, agi 90. -/
def pika : Pokemon := ⟨"Pika", "Electric", none, ⟨35, 55, 40, 90⟩⟩

/-- The spec's §8 Water creature: stats hp 39, atk 52, def 43, agi 84. -/
def squirt : Pokemon := ⟨"Squirt", "Water", none, ⟨39, 52, 43, 84⟩⟩

/-- Store holding only the relation-free type `"T"`. -/
def store_t : GraphStore := ⟨[n_type_t], []⟩

/-- An attacker with a zero defense stat (fixture for C4). -/
def atk_poke : Pokemon := ⟨"Atk", "T", none, ⟨100, 100, 0, 5⟩⟩

/-- A defender whose defense stat 300 exceeds 200, making the defense
multiplier `1 - (300/100)*0.5 = -0.5` negative (fixture for C4). -/
def tank_poke : Pokemon := ⟨"Tank", "T", none, ⟨10, 200, 300, 9⟩⟩

/-- Fixture for C9: attacker whose hit leaves the defender at 0.3 HP. -/
def volt_poke : Pokemon := ⟨"Volt", "T", none, ⟨30, 33, 0, 1⟩⟩

/-- Fixture for C9: defender with 30 HP. -/
def aqua_poke : Pokemon := ⟨"Aqua", "T", none, ⟨30, 0, 0, 2⟩⟩

/-- Fixture for C5: a relation-free attacker primary type. -/
def ty_a : PokemonType := ⟨"A", [], []⟩

/-- Fixture for C5: a relation-free attacker secondary type. -/
def ty_s : PokemonType := ⟨"S", [], []⟩

/-- Fixture for C5: a defender primary type strong against `"S"`. -/
def ty_d : PokemonType := ⟨"D", ["S"], []⟩

/-- Pokemon node `"Strong"`: hp 100, atk 100, def 0, agi 5. -/
def n_poke_strong : DbNode :=
  ⟨"Pokemon", [("name", PropVal.str "Strong"), ("hp", PropVal.num 100),
               ("attack", PropVal.num 100), ("defense", PropVal.num 0),
               ("agility", PropVal.num 5)]⟩

/-- Pokemon node `"Weak"`: hp 10, atk 0, def 0, agi 9. -/
def n_poke_weak : DbNode :=
  ⟨"Pokemon", [("name", PropVal.str "Weak"), ("hp", PropVal.num 10),
               ("attack", PropVal.num 0), ("defense", PropVal.num 0),
               ("agility", PropVal.num 9)]⟩

/-- Store for the one-encounter team match of C2/C3: two pokemon of type
`"T"`. -/
def store_sw : GraphStore :=
  ⟨[n_type_t, n_poke_strong, n_poke_weak],
   [(n_poke_strong, "PrimaryType", n_type_t), (n_poke_weak, "PrimaryType", n_type_t)]⟩

/-- A trainer whose team is the single promise `"Strong"`. -/
def trainer_ash : Trainer := ⟨"Ash", ["Strong"]⟩

/-- A trainer whose team is the single promise `"Weak"`. -/
def trainer_gary : Trainer := ⟨"Gary", ["Weak"]⟩

/-- Pokemon node `"Za"`: hp 1 and attack 0, so it deals no damage. -/
def n_poke_za : DbNode :=
  ⟨"Pokemon", [("name", PropVal.str "Za"), ("hp", PropVal.num 1),
               ("attack", PropVal.num 0), ("defense", PropVal.num 0),
               ("agility", PropVal.num 1)]⟩

/-- Pokemon node `"Zb"`: hp 1 and attack 0. -/
def n_poke_zb : DbNode :=
  ⟨"Pokemon", [("name", PropVal.str "Zb"), ("hp", PropVal.num 1),
               ("attack", PropVal.num 0), ("defense", PropVal.num 0),
               ("agility", PropVal.num 2)]⟩

/-- Store for the diverging zero-attack match of C3. -/
def store_z : GraphStore :=
  ⟨[n_type_t, n_poke_za, n_poke_zb],
   [(n_poke_za, "PrimaryType", n_type_t), (n_poke_zb, "PrimaryType", n_type_t)]⟩

/-- The resolved zero-attack pokemon `"Za"`. -/
def za_poke : Pokemon := ⟨"Za", "T", none, ⟨1, 0, 0, 1⟩⟩

/-- The resolved zero-attack pokemon `"Zb"`. -/
def zb_poke : Pokemon := ⟨"Zb", "T", none, ⟨1, 0, 0, 2⟩⟩

/-- Trainer owning only `"Za"`. -/
def trainer_zed : Trainer := ⟨"Zed", ["Za"]⟩

/-- Trainer owning only `"Zb"`. -/
def trainer_zoe : Trainer := ⟨"Zoe", ["Zb"]⟩

/-- The match between the zero-attack teams never returns, whatever the
fuel: every round deals zero damage, so the inner encounter loop never
exits and `trainer_fight::process_fight` never reaches a result. -/
def zero_attack_match_never_returns : Prop :=
  ∀ fuel, trainer_process_fight store_z trainer_zed trainer_zoe
    .StrongestAtk .StrongestAtk [] [] fuel = .ok none

/-- A `Pokemon` node for C6/C8 scenarios without any edges. -/
def n_pika_node : DbNode := ⟨"Pokemon", [("name", PropVal.str "Pika")]⟩

/-- Store for C6: both endpoint nodes exist, but there is no edge. -/
def store_no_edge : GraphStore := ⟨[n_pika_node, n_electric], []⟩

/-- A complete `Pokemon` node with no `PrimaryType` edge (fixture for
C8). -/
def n_poke_mew : DbNode :=
  ⟨"Pokemon", [("name", PropVal.str "Mew"), ("hp", PropVal.num 1),
               ("attack", PropVal.num 1), ("defense", PropVal.num 1),
               ("agility", PropVal.num 1)]⟩

/-- Store containing only the edge-less `"Mew"` node. -/
def store_mew : GraphStore := ⟨[n_poke_mew], []⟩

/-! ## Helper lemmas shared between claims -/

set_option maxHeartbeats 1600000 in
/-- Lower and upper bound on the type damage multiplier: each of the
four checks moves it by `+0.375`, `-0.225` or `0`, starting from `1`. -/
theorem damage_mult_of_bounds (atk_ptype : PokemonType) (atk_stype : Option PokemonType)
    (def_ptype : PokemonType) (def_stype : Option PokemonType) :
    (1 / 10 : ℚ) ≤ damage_mult_of atk_ptype atk_stype def_ptype def_stype ∧
      damage_mult_of atk_ptype atk_stype def_ptype def_stype ≤ 5 / 2 := by
  cases atk_stype <;> cases def_stype <;> simp only [damage_mult_of] <;>
    split_ifs <;> norm_num

/-- Round damage is non-negative whenever the multiplier and the raw
random draw are non-negative and the defender's defense is at most 200. -/
theorem round_damage_nonneg (attack defense : Nat) (m r : ℚ)
    (hm : 0 ≤ m) (hr : 0 ≤ r) (hdef : defense ≤ 200) :
    0 ≤ round_damage attack m (rand_mult_of r) (defense_mult_of defense) := by
  unfold round_damage rand_mult_of defense_mult_of
  have h1 : (0 : ℚ) ≤ (attack : ℚ) := Nat.cast_nonneg attack
  have h2 : (0 : ℚ) ≤ 0.8 + r * 0.4 := by nlinarith
  have h3 : (defense : ℚ) ≤ 200 := by exact_mod_cast hdef
  have h4 : (0 : ℚ) ≤ 1 - ((defense : ℚ) / 100) * 0.5 := by nlinarith
  positivity

/-- Rounding half away from zero never exceeds a natural bound of the
argument (after the saturating `u32` conversion's `toNat`). -/
theorem rust_round_toNat_le (q : ℚ) (n : ℕ) (h : q ≤ n) :
    (rust_round q).toNat ≤ n := by
  unfold rust_round
  split_ifs with hneg
  · have h1 : (0 : ℤ) ≤ ⌊-q + 1 / 2⌋ := by
      apply Int.le_floor.mpr
      push_cast
      linarith
    omega
  · rw [Int.toNat_le]
    have h2 : ⌊q + 1 / 2⌋ ≤ ⌊(n : ℚ) + 1 / 2⌋ := Int.floor_le_floor (by linarith)
    have h3 : ⌊(n : ℚ) + 1 / 2⌋ = n := by
      rw [Int.floor_eq_iff]
      push_cast
      constructor <;> linarith
    omega

/-- The saturating rounded `u32` conversion never exceeds a natural
bound of the argument. -/
theorem u32_of_round_le_nat (q : ℚ) (n : ℕ) (h : q ≤ n) :
    u32_of_round q ≤ n :=
  le_trans (min_le_left _ _) (rust_round_toNat_le q n h)

/-- Classification is `SuperEffective` exactly above `1.8`. -/
theorem effectiveness_of_super_iff (m : ℚ) :
    effectiveness_of m = .SuperEffective ↔ 1.8 < m := by
  unfold effectiveness_of
  split_ifs with h1 h2
  · simpa using h1
  · simp
    linarith
  · rw [not_lt] at h1
    simpa using h1

/-- Classification is `NotVeryEffective` exactly below `0.6`. -/
theorem effectiveness_of_notvery_iff (m : ℚ) :
    effectiveness_of m = .NotVeryEffective ↔ m < 0.6 := by
  unfold effectiveness_of
  split_ifs with h1 h2
  · simp
    linarith
  · simpa using h2
  · rw [not_lt] at h2
    simpa using h2

/-- Classification is `Normal` exactly on `[0.6, 1.8]`. -/
theorem effectiveness_of_normal_iff (m : ℚ) :
    effectiveness_of m = .Normal ↔ (m ≤ 1.8 ∧ 0.6 ≤ m) := by
  unfold effectiveness_of
  split_ifs with h1 h2
  · simp
    intro h
    linarith
  · simp
    intro h
    linarith
  · rw [not_lt] at h1 h2
    simp
    exact ⟨h1, h2⟩

/-- C4 (amended): in any combat round whose defender has a defense stat
of at most 200 (so the defense multiplier is non-negative) and whose raw
random draw is non-negative (as `rand::random::<f32>()` always is), the
defender's HP recorded in the `Hit` event is at most the defender's HP
before the hit: the damage is non-negative, and rounding preserves the
bound.  Without the defense bound the claim fails (see
`c4_counterexample`): a defense stat above 200 makes the defense
multiplier, hence the damage, negative, and the hit heals the
defender. -/
theorem c4_hit_hp_monotone (atk_ptype : PokemonType) (atk_stype : Option PokemonType)
    (def_ptype : PokemonType) (def_stype : Option PokemonType)
    (attack defense def_hp : Nat) (r : ℚ)
    (hr : 0 ≤ r) (hdef : defense ≤ 200) :
    hit_hp_left def_hp
      (round_damage attack (damage_mult_of atk_ptype atk_stype def_ptype def_stype)
        (rand_mult_of r) (defense_mult_of defense)) ≤ def_hp := by
  have hm := (damage_mult_of_bounds atk_ptype atk_stype def_ptype def_stype).1
  have hdmg : 0 ≤ round_damage attack (damage_mult_of atk_ptype atk_stype def_ptype def_stype)
      (rand_mult_of r) (defense_mult_of defense) :=
    round_damage_nonneg attack defense _ r (by linarith) hr hdef
  unfold hit_hp_left
  rw [Nat.max_zero]
  exact u32_of_round_le_nat _ def_hp (by linarith)

/-- Rust's `max_by_key` only ever returns an element of the iterated
collection. -/
theorem max_by_key_last_mem (key : Pokemon → Nat) (l : List Pokemon) (p : Pokemon)
    (h : max_by_key_last key l = some p) : p ∈ l := by
  induction l with
  | nil => simp [max_by_key_last] at h
  | cons a t ih =>
      rw [max_by_key_last] at h
      cases ht : max_by_key_last key t with
      | none =>
          rw [ht] at h
          injection h with h
          subst h
          exact List.mem_cons_self a t
      | some q =>
          rw [ht] at h
          dsimp only at h
          split_ifs at h with hk
          · injection h with h
            subst h
            exact List.mem_cons_self a t
          · injection h with h
            subst h
            exact List.mem_cons_of_mem a (ih ht)

/-- The `StrongestType` search only ever returns an element of the
team. -/
theorem strongest_type_search_mem (store : GraphStore)
    (enemy_primary_type enemy_secondary_type : Option PokemonType)
    (l : List Pokemon) (p : Pokemon)
    (h : strongest_type_search store enemy_primary_type enemy_secondary_type l = some p) :
    p ∈ l := by
  induction l with
  | nil => simp [strongest_type_search] at h
  | cons a t ih =>
      rw [strongest_type_search] at h
      cases hres : (PokemonType.get_first store a.primary_type).toOption with
      | none =>
          rw [hres] at h
          exact List.mem_cons_of_mem a (ih h)
      | some ty =>
          rw [hres] at h
          dsimp only at h
          split_ifs at h with h1 h2 h3 h4
          · injection h with h; subst h; exact List.mem_cons_self a t
          · injection h with h; subst h; exact List.mem_cons_self a t
          · injection h with h; subst h; exact List.mem_cons_self a t
          · exact List.mem_cons_of_mem a (ih h)
          · injection h with h; subst h; exact List.mem_cons_self a t

/-- Every pokemon a strategy picks is a member of the team it picked
from. -/
theorem choose_pokemon_mem (strat : FightStrategy) (store : GraphStore)
    (team : List Pokemon) (enemy_pokemon : Option Pokemon) (r : Nat) (p : Pokemon)
    (h : strat.choose_pokemon store team enemy_pokemon r = .ok (some p)) : p ∈ team := by
  cases strat with
  | StrongestAtk =>
      simp only [FightStrategy.choose_pokemon] at h
      injection h with h
      exact max_by_key_last_mem _ _ _ h
  | StrongestDef =>
      simp only [FightStrategy.choose_pokemon] at h
      injection h with h
      exact max_by_key_last_mem _ _ _ h
  | StrongestSum =>
      simp only [FightStrategy.choose_pokemon] at h
      injection h with h
      exact max_by_key_last_mem _ _ _ h
  | StrongestType =>
      simp only [FightStrategy.choose_pokemon] at h
      cases enemy_pokemon with
      | none =>
          injection h with h
          exact max_by_key_last_mem _ _ _ h
      | some e =>
          dsimp only at h
          cases hs : strongest_type_search store
              ((PokemonType.get_first store e.primary_type).toOption)
              (match e.secondary_type with
               | some t => (PokemonType.get_first store t).toOption
               | none => none) team with
          | some q =>
              rw [hs] at h
              injection h with h
              injection h with h
              subst h
              exact strongest_type_search_mem _ _ _ _ _ hs
          | none =>
              rw [hs] at h
              injection h with h
              exact max_by_key_last_mem _ _ _ h
  | Random =>
      simp only [FightStrategy.choose_pokemon] at h
      split_ifs at h
      injection h with h
      exact List.get?_mem h

/-- Every `Fainted` event a round emits names one of the two fighting
pokemon (the round's defender). -/
theorem fight_round_fainted (contender challenger : Pokemon)
    (cP : PokemonType) (cS : Option PokemonType) (hP : PokemonType)
    (hS : Option PokemonType) (chp hhp : Nat) (last : Pokemon) (r : ℚ) (nm : String)
    (hmem : FightEvent.Fainted nm ∈
      (fight_round contender challenger cP cS hP hS chp hhp last r).1) :
    nm = contender.name ∨ nm = challenger.name := by
  unfold fight_round round_sides at hmem
  by_cases hl : last = challenger
  · rw [if_pos hl] at hmem
    dsimp only at hmem
    split at hmem
    · simp at hmem
      exact Or.inr hmem
    · simp at hmem
  · rw [if_neg hl] at hmem
    dsimp only at hmem
    split at hmem
    · simp at hmem
      exact Or.inl hmem
    · simp at hmem

/-- Every `Fainted` event in a completed encounter log names one of the
two fighting pokemon. -/
theorem fight_loop_fainted (contender challenger : Pokemon)
    (cP : PokemonType) (cS : Option PokemonType) (hP : PokemonType)
    (hS : Option PokemonType) :
    ∀ fuel chp hhp (last : Pokemon) rands acc evs rands',
    fight_loop contender challenger cP cS hP hS fuel chp hhp last rands acc =
      some (evs, rands') →
    (∀ nm, FightEvent.Fainted nm ∈ acc → nm = contender.name ∨ nm = challenger.name) →
    ∀ nm, FightEvent.Fainted nm ∈ evs → nm = contender.name ∨ nm = challenger.name := by
  intro fuel
  induction fuel with
  | zero =>
      intro chp hhp last rands acc evs rands' h hacc nm hmem
      rw [fight_loop] at h
      split_ifs at h
      rw [Option.some_inj, Prod.mk.injEq] at h
      obtain ⟨h1, h2⟩ := h
      subst h1
      exact hacc nm hmem
  | succ n ih =>
      intro chp hhp last rands acc evs rands' h hacc nm hmem
      rw [fight_loop] at h
      split_ifs at h with hc
      · refine ih _ _ _ _ _ _ _ h ?_ nm hmem
        intro nm' hm'
        rcases List.mem_append.mp hm' with hm' | hm'
        · exact hacc nm' hm'
        · exact fight_round_fainted contender challenger cP cS hP hS
            chp hhp last (rands.headD 0) nm' hm'
      · rw [Option.some_inj, Prod.mk.injEq] at h
        obtain ⟨h1, h2⟩ := h
        subst h1
        exact hacc nm hmem

/-- Every `Fainted` event in a successful `process_fight_with_hp` log
names one of the two pokemon that fought. -/
theorem process_fight_with_hp_fainted (store : GraphStore)
    (contender challenger : Pokemon) (chp hhp : Nat) (rands : List ℚ) (fuel : Nat)
    (flog : FightLog) (rands' : List ℚ)
    (h : process_fight_with_hp store contender challenger chp hhp rands fuel =
      .ok (some (flog, rands')))
    (nm : String) (hmem : FightEvent.Fainted nm ∈ flog.log) :
    nm = contender.name ∨ nm = challenger.name := by
  simp only [process_fight_with_hp, bind, Except.bind] at h
  cases h1 : PokemonType.get_first store contender.primary_type with
  | error e => rw [h1] at h; exact absurd h (by simp)
  | ok cP =>
  rw [h1] at h
  dsimp only at h
  cases h2 : resolve_secondary store contender.secondary_type with
  | error e => rw [h2] at h; exact absurd h (by simp)
  | ok cS =>
  rw [h2] at h
  dsimp only at h
  cases h3 : PokemonType.get_first store challenger.primary_type with
  | error e => rw [h3] at h; exact absurd h (by simp)
  | ok hP =>
  rw [h3] at h
  dsimp only at h
  cases h4 : resolve_secondary store challenger.secondary_type with
  | error e => rw [h4] at h; exact absurd h (by simp)
  | ok hS =>
  rw [h4] at h
  dsimp only at h
  cases hfl : fight_loop contender challenger cP cS hP hS fuel chp hhp
      (if contender.stats.agility > challenger.stats.agility then contender else challenger)
      rands [] with
  | none => rw [hfl] at h; exact absurd h (by simp)
  | some pr =>
      rw [hfl] at h
      simp only [Option.map_some', Except.ok.injEq, Option.some.injEq, Prod.mk.injEq] at h
      obtain ⟨h5, h6⟩ := h
      have hlog : flog.log = pr.1 := by rw [← h5]
      exact fight_loop_fainted contender challenger cP cS hP hS fuel chp hhp _ rands []
        pr.1 pr.2 (by rw [hfl]) (by intro nm' hmm; simp at hmm) nm (hlog ▸ hmem)

/-- Removing a present name by `retain` strictly shrinks the team. -/
theorem filter_name_length_lt (l : List Pokemon) (p : Pokemon) (nm : String)
    (hp : p ∈ l) (hnm : p.name = nm) :
    (l.filter (fun q => q.name != nm)).length < l.length := by
  induction l with
  | nil => cases hp
  | cons a t ih =>
      rw [List.filter_cons]
      rcases List.mem_cons.mp hp with rfl | hmem
      · have : (p.name != nm) = false := by simp [hnm]
        rw [this]
        simp only [Bool.false_eq_true, if_false, List.length_cons]
        exact Nat.lt_succ_of_le (List.length_filter_le _ _)
      · by_cases hcond : (a.name != nm) = true
        · rw [if_pos hcond]
          simpa using Nat.succ_lt_succ (ih hmem)
        · rw [if_neg hcond]
          exact Nat.lt_succ_of_lt (ih hmem)

/-- Team resolution preserves the team's length. -/
theorem resolve_team_length (store : GraphStore) :
    ∀ (l : List String) (ps : List Pokemon),
    resolve_team store l = .ok ps → ps.length = l.length := by
  intro l
  induction l with
  | nil =>
      intro ps h
      rw [resolve_team] at h
      rw [show ps = [] from by cases h; rfl]
      rfl
  | cons i t ih =>
      intro ps h
      rw [resolve_team] at h
      cases h1 : Pokemon.get_first store i with
      | error e => rw [h1] at h; exact absurd h (by simp [bind, Except.bind])
      | ok p =>
          rw [h1] at h
          cases h2 : resolve_team store t with
          | error e =>
              rw [h2] at h
              exact absurd h (by simp [bind, Except.bind])
          | ok ps' =>
              rw [h2] at h
              simp only [bind, Except.bind, Except.ok.injEq] at h
              subst h
              simp [ih ps' h2]

/-- Fight-count bound for the orchestration loop: every completed
single-encounter fight removes at least one pokemon from one of the two
teams (the fainted pokemon, which the active-pokemon invariants place in
its team), so a successful run performs at most
`fights-so-far + |challenger team| + |contender team|` fights. -/
theorem trainer_fight_loop_fights_le (store : GraphStore)
    (challenger contender : Trainer) (challenger_strat contender_strat : FightStrategy) :
    ∀ fuel (chal_team cont_team : List Pokemon)
      (chal_poke cont_poke : Option Pokemon) (chal_hp cont_hp : Nat)
      (acc : List FightEvent) (rands : List ℚ) (urands : List Nat) (k : Nat)
      (evs : List FightEvent) (n : Nat),
    trainer_fight_loop store challenger contender challenger_strat contender_strat
      fuel chal_team cont_team chal_poke cont_poke chal_hp cont_hp acc rands urands k =
      .ok (some (evs, n)) →
    (∀ p, chal_poke = some p → p ∈ chal_team) →
    (∀ p, cont_poke = some p → p ∈ cont_team) →
    n ≤ k + chal_team.length + cont_team.length := by
  intro fuel
  induction fuel with
  | zero =>
      intro chal_team cont_team chal_poke cont_poke chal_hp cont_hp acc rands urands
        k evs n h hmc hmo
      simp only [trainer_fight_loop] at h
      by_cases hcond : (!chal_team.isEmpty && !cont_team.isEmpty) = true
      · rw [if_pos hcond] at h
        exact absurd h (by simp)
      · rw [if_neg hcond] at h
        simp only [Except.ok.injEq, Option.some.injEq, Prod.mk.injEq] at h
        obtain ⟨h1, h2⟩ := h
        omega
  | succ f ih =>
      intro chal_team cont_team chal_poke cont_poke chal_hp cont_hp acc rands urands
        k evs n h hmc hmo
      simp only [trainer_fight_loop] at h
      by_cases hcond : (!chal_team.isEmpty && !cont_team.isEmpty) = true
      case neg =>
        rw [if_neg hcond] at h
        simp only [Except.ok.injEq, Option.some.injEq, Prod.mk.injEq] at h
        obtain ⟨h1, h2⟩ := h
        omega
      case pos =>
      rw [if_pos hcond] at h
      cases chal_poke with
      | none =>
          cases cont_poke with
          | none => exact absurd h (by simp)
          | some co =>
              dsimp only at h
              cases h5 : FightStrategy.choose_pokemon challenger_strat store chal_team
                  (some co) (urands.headD 0) with
              | error e => rw [h5] at h; exact absurd h (by simp)
              | ok op =>
                  rw [h5] at h
                  cases op with
                  | none => exact absurd h (by simp)
                  | some p =>
                      dsimp only at h
                      have := ih chal_team cont_team (some p) (some co) chal_hp cont_hp
                        _ rands urands.tail k evs n h
                        (by intro q hq; cases hq; exact choose_pokemon_mem _ _ _ _ _ _ h5)
                        (by intro q hq; cases hq; exact hmo co rfl)
                      omega
      | some cp =>
          cases cont_poke with
          | none =>
              dsimp only at h
              cases h5 : FightStrategy.choose_pokemon contender_strat store cont_team
                  (some cp) (urands.headD 0) with
              | error e => rw [h5] at h; exact absurd h (by simp)
              | ok op =>
                  rw [h5] at h
                  cases op with
                  | none => exact absurd h (by simp)
                  | some p =>
                      dsimp only at h
                      have := ih chal_team cont_team (some cp) (some p) chal_hp cont_hp
                        _ rands urands.tail k evs n h
                        (by intro q hq; cases hq; exact hmc cp rfl)
                        (by intro q hq; cases hq; exact choose_pokemon_mem _ _ _ _ _ _ h5)
                      omega
          | some co =>
              dsimp only at h
              cases h5 : process_fight_with_hp store cp co chal_hp cont_hp rands f with
              | error e => rw [h5] at h; exact absurd h (by simp)
              | ok oin =>
                  rw [h5] at h
                  cases oin with
                  | none => exact absurd h (by simp)
                  | some pr =>
                      obtain ⟨flog, rands'⟩ := pr
                      dsimp only at h
                      by_cases hlen : 2 ≤ flog.log.length
                      case neg =>
                          rw [if_neg hlen] at h
                          exact absurd h (by simp)
                      case pos =>
                      rw [if_pos hlen] at h
                      cases h6 : flog.log.get? (flog.log.length - 2) with
                      | none => rw [h6] at h; exact absurd h (by simp)
                      | some ev =>
                          rw [h6] at h
                          cases ev with
                          | ChoosePokemon a b => exact absurd h (by simp)
                          | Hit a b c d e => exact absurd h (by simp)
                          | PokemonWinner a b => exact absurd h (by simp)
                          | Winner a b => exact absurd h (by simp)
                          | Fainted nm =>
                          dsimp only at h
                          have hfnm : nm = cp.name ∨ nm = co.name :=
                            process_fight_with_hp_fainted store cp co chal_hp cont_hp
                              rands f flog rands' h5 nm (List.get?_mem h6)
                          cases h7 : flog.log.getLast? with
                          | none => rw [h7] at h; exact absurd h (by simp)
                          | some ev2 =>
                              rw [h7] at h
                              cases ev2 with
                              | ChoosePokemon a b => exact absurd h (by simp)
                              | Hit a b c d e => exact absurd h (by simp)
                              | Fainted a => exact absurd h (by simp)
                              | Winner a b => exact absurd h (by simp)
                              | PokemonWinner wname w_hp =>
                              dsimp only at h
                              by_cases hn1 : cp.name = nm
                              case pos =>
                                  rw [if_pos hn1] at h
                                  dsimp only at h
                                  have hlt : (chal_team.filter
                                      (fun q => q.name != nm)).length < chal_team.length :=
                                    filter_name_length_lt chal_team cp nm (hmc cp rfl) hn1
                                  have := ih (chal_team.filter (fun q => q.name != nm))
                                    cont_team none (some co) _ _ _ rands' urands (k + 1) evs n h
                                    (by intro q hq; cases hq)
                                    (by intro q hq; cases hq; exact hmo co rfl)
                                  omega
                              case neg =>
                                  rw [if_neg hn1] at h
                                  by_cases hn2 : co.name = nm
                                  case pos =>
                                      rw [if_pos hn2] at h
                                      dsimp only at h
                                      have hlt : (cont_team.filter
                                          (fun q => q.name != nm)).length < cont_team.length :=
                                        filter_name_length_lt cont_team co nm (hmo co rfl) hn2
                                      have := ih chal_team
                                        (cont_team.filter (fun q => q.name != nm))
                                        (some cp) none _ _ _ rands' urands (k + 1) evs n h
                                        (by intro q hq; cases hq; exact hmc cp rfl)
                                        (by intro q hq; cases hq)
                                      omega
                                  case neg =>
                                      rcases hfnm with hf | hf
                                      · exact absurd hf.symm hn1
                                      · exact absurd hf.symm hn2

/-- C3 (amended): whenever the team orchestration returns a result, the
number of single-encounter fights it performed is at most the sum of the
two teams' sizes.  (Termination itself is NOT guaranteed: see
`c3_counterexample` — a zero-attack encounter loops forever.) -/
theorem c3_fights_bound (store : GraphStore) (challenger contender : Trainer)
    (challenger_strat contender_strat : FightStrategy)
    (rands : List ℚ) (urands : List Nat) (fuel : Nat) (flog : FightLog) (n : Nat)
    (h : trainer_process_fight store challenger contender challenger_strat contender_strat
      rands urands fuel = .ok (some (flog, n))) :
    n ≤ challenger.team.length + contender.team.length := by
  simp only [trainer_process_fight, bind, Except.bind] at h
  cases h1 : resolve_team store challenger.team with
  | error e => rw [h1] at h; exact absurd h (by simp)
  | ok chalT =>
  rw [h1] at h
  dsimp only at h
  cases h2 : resolve_team store contender.team with
  | error e => rw [h2] at h; exact absurd h (by simp)
  | ok contT =>
  rw [h2] at h
  dsimp only at h
  cases h3 : FightStrategy.choose_pokemon contender_strat store contT none
      (urands.headD 0) with
  | error e => rw [h3] at h; exact absurd h (by simp)
  | ok op =>
  rw [h3] at h
  cases op with
  | none => exact absurd h (by simp)
  | some contP =>
  dsimp only at h
  cases h4 : FightStrategy.choose_pokemon challenger_strat store chalT (some contP)
      (urands.tail.headD 0) with
  | error e => rw [h4] at h; exact absurd h (by simp)
  | ok op2 =>
  rw [h4] at h
  cases op2 with
  | none => exact absurd h (by simp)
  | some chalP =>
  dsimp only at h
  cases h5 : trainer_fight_loop store challenger contender challenger_strat contender_strat
      fuel chalT contT (some chalP) (some contP) chalP.stats.hp contP.stats.hp
      [FightEvent.ChoosePokemon contender.name contP.name,
       FightEvent.ChoosePokemon challenger.name chalP.name] rands urands.tail.tail 0 with
  | error e => rw [h5] at h; exact absurd h (by simp [Except.map])
  | ok oo =>
  rw [h5] at h
  cases oo with
  | none => exact absurd h (by simp [Except.map])
  | some pr =>
  obtain ⟨evs, n'⟩ := pr
  simp only [Except.map, Option.map_some', Except.ok.injEq, Option.some.injEq,
    Prod.mk.injEq] at h
  obtain ⟨_, hn⟩ := h
  have hb := trainer_fight_loop_fights_le store challenger contender
    challenger_strat contender_strat fuel chalT contT (some chalP) (some contP)
    chalP.stats.hp contP.stats.hp _ rands urands.tail.tail 0 evs n' h5
    (by intro q hq; cases hq; exact choose_pokemon_mem _ _ _ _ _ _ h4)
    (by intro q hq; cases hq; exact choose_pokemon_mem _ _ _ _ _ _ h3)
  rw [resolve_team_length store _ _ h1, resolve_team_length store _ _ h2] at hb
  omega

/-- A successful digit-run evaluation means every character was a
digit. -/
theorem digits_core_all_digits (l : List Char) :
    ∀ acc n, digits_core acc l = some n → ∀ c ∈ l, c.isDigit := by
  induction l with
  | nil => intro acc n _ c hc; cases hc
  | cons a t ih =>
      intro acc n h c hc
      rw [digits_core] at h
      split_ifs at h with hd
      rcases List.mem_cons.mp hc with rfl | hc
      · exact hd
      · exact ih _ n h c hc

/-- Sanitizing an all-digit character list is the identity. -/
theorem sanitize_chars_of_digits (l : List Char) (h : ∀ c ∈ l, c.isDigit) :
    sanitize_chars l = l := by
  induction l with
  | nil => rfl
  | cons a t ih =>
      have ha := h a (List.mem_cons_self a t)
      rw [sanitize_chars]
      rw [if_neg (by intro he; subst he; exact absurd ha (by decide)),
          if_neg (by intro he; subst he; exact absurd ha (by decide)),
          if_neg (by intro he; subst he; exact absurd ha (by decide))]
      rw [ih (fun c hc => h c (List.mem_cons_of_mem a hc))]

/-- Every character of a list whose signless form is a successful digit
run is untouched by the sanitizer. -/
theorem digits_value_all_digits (l : List Char) (n : Nat)
    (h : digits_value l = some n) : ∀ c ∈ l, c.isDigit := by
  cases l with
  | nil => simp [digits_value] at h
  | cons a t =>
      intro c hc
      rw [digits_value] at h
      · exact digits_core_all_digits (a :: t) 0 n h c hc
      · simp

/-- Sanitizing any list whose signless form is all digits is the
identity. -/
theorem sanitize_chars_of_drop_sign (l : List Char)
    (h : ∀ c ∈ drop_sign l, c.isDigit) : sanitize_chars l = l := by
  cases l with
  | nil => rfl
  | cons a t =>
      by_cases ha : a = '+'
      · subst ha
        have ht : ∀ c ∈ t, c.isDigit := by simpa [drop_sign] using h
        rw [sanitize_chars]
        rw [if_neg (by decide), if_neg (by decide), if_neg (by decide)]
        rw [sanitize_chars_of_digits t ht]
      · have hl : drop_sign (a :: t) = a :: t := by simp [drop_sign, ha]
        rw [hl] at h
        exact sanitize_chars_of_digits (a :: t) h

/-- Sanitizing a string that parses as a `u64` is the identity: the
optional sign and the digits are untouched by the sanitizer. -/
theorem parses_as_u64_sanitize (s : String) (h : parses_as_u64 s = true) :
    sanitize s = s := by
  unfold parses_as_u64 at h
  cases hdv : digits_value (drop_sign s.data) with
  | none => simp [hdv] at h
  | some n =>
      have hall := digits_value_all_digits _ _ hdv
      unfold sanitize
      rw [sanitize_chars_of_drop_sign s.data hall]

/-- C7 (amended): `get_db_node` conforms to the spec emission (sanitize,
quote exactly the non-numeric identifiers; sanitizing a numeric
identifier is the identity, so emitting it raw agrees with the spec),
while `delete` emits the sanitized identifier WITHOUT quotes, and
`update` splices the identifier in verbatim, with neither sanitization
nor quoting. -/
theorem c7_identifier_emission (kind id_field ident args : String) :
    get_db_node_query kind id_field ident =
      "MATCH (n:" ++ kind ++ ") WHERE n." ++ id_field ++ " = " ++
        spec_ident_emission ident ++ " RETURN n;" ∧
    delete_query kind id_field ident =
      "MATCH (n:" ++ kind ++ ") WHERE n." ++ id_field ++ " = " ++
        sanitize ident ++ " DELETE n;" ∧
    update_query kind id_field ident args =
      "MATCH (n:" ++ kind ++ ") WHERE n." ++ id_field ++ " = " ++ ident ++
        " SET " ++ args := by
  refine ⟨?_, rfl, rfl⟩
  unfold get_db_node_query get_db_node_ident_emission spec_ident_emission
  by_cases hp : parses_as_u64 ident
  · rw [if_pos hp, if_pos hp, parses_as_u64_sanitize ident hp]
  · rw [if_neg hp, if_neg hp]

/-- C8 (amended): the keyed read maps zero rows to the `"No rows"` error
(the NotFound outcome) for both entity kinds, and `get_all` on a store
with no nodes returns the empty sequence, not an error.  When a matching
node exists, reconstruction can still fail (see `c8_counterexample`: a
`Pokemon` row without a `PrimaryType` edge), so "errors exactly on zero
rows" does not hold as stated. -/
theorem c8_amended (store : GraphStore) (ident : String)
    (edges : List (DbNode × String × DbNode)) :
    (has_matching_node store "Pokemon" "name" ident = false →
      Pokemon.get_first store ident = .error "No rows") ∧
    (has_matching_node store "PokemonType" "name" ident = false →
      PokemonType.get_first store ident = .error "No rows") ∧
    Pokemon.get_all ⟨[], edges⟩ = .ok [] ∧
    PokemonType.get_all ⟨[], edges⟩ = .ok [] := by
  refine ⟨?_, ?_, rfl, rfl⟩
  · intro h
    unfold has_matching_node at h
    rw [List.any_eq_false] at h
    have hnil : store.nodes.filter (fun n => node_matches n "Pokemon" "name" ident) = [] := by
      rw [List.filter_eq_nil_iff]
      exact fun a ha => h a ha
    simp [Pokemon.get_first, get_db_node, hnil, bind, Except.bind]
  · intro h
    unfold has_matching_node at h
    rw [List.any_eq_false] at h
    have hnil : store.nodes.filter
        (fun n => node_matches n "PokemonType" "name" ident) = [] := by
      rw [List.filter_eq_nil_iff]
      exact fun a ha => h a ha
    simp [PokemonType.get_first, get_db_node, hnil, bind, Except.bind]

/-- C5 (amended): for every combination of attacker/defender primary and
optional secondary types, the type damage multiplier lies in
`[0.1, 2.5]`, and the effectiveness classification is a function of the
multiplier alone: `SuperEffective` iff it exceeds `1.8`,
`NotVeryEffective` iff it is below `0.6`, `Normal` otherwise.  (The
claim's description of the four checks is corrected by
`c5_counterexample`: in the two checks that compare a DEFENDER type
against the attacker's secondary type, strong-against subtracts `0.225`
and weak-against adds `0.375`, the reverse of the claimed orientation.) -/
theorem c5_mult_bounds_and_classification (atk_ptype : PokemonType)
    (atk_stype : Option PokemonType) (def_ptype : PokemonType)
    (def_stype : Option PokemonType) (m : ℚ) :
    (1 / 10 ≤ damage_mult_of atk_ptype atk_stype def_ptype def_stype ∧
      damage_mult_of atk_ptype atk_stype def_ptype def_stype ≤ 5 / 2) ∧
    (effectiveness_of m = .SuperEffective ↔ 1.8 < m) ∧
    (effectiveness_of m = .NotVeryEffective ↔ m < 0.6) ∧
    (effectiveness_of m = .Normal ↔ (m ≤ 1.8 ∧ 0.6 ≤ m)) :=
  ⟨damage_mult_of_bounds atk_ptype atk_stype def_ptype def_stype,
   effectiveness_of_super_iff m, effectiveness_of_notvery_iff m,
   effectiveness_of_normal_iff m⟩

unseal Rat.add Rat.mul Rat.sub Rat.inv Rat.ofScientific

/-- C1: the claim (and the algorithm documented on
`process_fight_with_hp` itself) says the pokemon with the strictly
higher agility attacks first, ties favouring the second argument.  The
code does the opposite: `last_to_attack` is initialised to the
higher-agility `starting_pokemon`, and each round's attacker is the side
`last_to_attack` does NOT match — so the spec-§8 Electric-style creature
`pika` (agility 90) is attacked first by the slower `squirt`
(agility 84): the first `Hit` of the log names `"Squirt"` as attacker. -/
theorem c1_first_hit_attacker :
    squirt.stats.agility < pika.stats.agility ∧
    process_fight store_ew pika squirt [1 / 2] 5 =
      .ok (some (⟨"Pika", "Squirt",
        [FightEvent.Hit "Squirt" "Pika" 41 0 .Normal,
         FightEvent.Fainted "Pika",
         FightEvent.PokemonWinner "Squirt" 39]⟩, [])) :=
  ⟨by decide, by rfl⟩

/-- C2: a team match that runs to successful completion (the contender's
roster becomes empty) returns a log WITHOUT any `Winner` event: the
`process_victory` pushes are dead code, guarded by team-emptiness tests
inside a loop whose condition guarantees both teams are non-empty. -/
theorem c2_winner_event_missing :
    trainer_process_fight store_sw trainer_ash trainer_gary
      .StrongestAtk .StrongestAtk [1 / 2] [] 5 =
      .ok (some (⟨"Gary", "Ash",
        [FightEvent.ChoosePokemon "Gary" "Weak",
         FightEvent.ChoosePokemon "Ash" "Strong",
         FightEvent.Hit "Strong" "Weak" 100 0 .Normal,
         FightEvent.Fainted "Weak",
         FightEvent.PokemonWinner "Strong" 100]⟩, 1)) ∧
    ([FightEvent.ChoosePokemon "Gary" "Weak",
      FightEvent.ChoosePokemon "Ash" "Strong",
      FightEvent.Hit "Strong" "Weak" 100 0 .Normal,
      FightEvent.Fainted "Weak",
      FightEvent.PokemonWinner "Strong" 100].all
        (fun e => !is_winner_event e)) = true :=
  ⟨by rfl, by decide⟩

/-- One zero-damage round from `za_poke`'s turn leaves the state
unchanged except for alternating the attacker. -/
theorem fight_round_za (r : ℚ) :
    fight_round za_poke zb_poke t_plain none t_plain none 1 1 za_poke r =
      ([FightEvent.Hit "Zb" "Za" 0 1 .Normal], 1, 1, zb_poke) := by
  unfold fight_round round_sides
  rw [if_neg (by decide : ¬(za_poke = zb_poke))]
  norm_num [za_poke, zb_poke, t_plain, damage_mult_of, PokemonType.is_strong_against,
    PokemonType.is_weak_against, round_damage, rand_mult_of, defense_mult_of,
    effectiveness_of, u32_of_trunc, u32_of_round, rust_round, hit_hp_left]

/-- One zero-damage round from `zb_poke`'s turn. -/
theorem fight_round_zb (r : ℚ) :
    fight_round za_poke zb_poke t_plain none t_plain none 1 1 zb_poke r =
      ([FightEvent.Hit "Za" "Zb" 0 1 .Normal], 1, 1, za_poke) := by
  unfold fight_round round_sides
  rw [if_pos (rfl : zb_poke = zb_poke)]
  norm_num [za_poke, zb_poke, t_plain, damage_mult_of, PokemonType.is_strong_against,
    PokemonType.is_weak_against, round_damage, rand_mult_of, defense_mult_of,
    effectiveness_of, u32_of_trunc, u32_of_round, rust_round, hit_hp_left]

/-- The encounter loop between the two zero-attack pokemon never exits:
both HP values stay at 1 forever. -/
theorem fight_loop_za_zb_none :
    ∀ fuel (last : Pokemon) (rands : List ℚ) (acc : List FightEvent),
    (last = za_poke ∨ last = zb_poke) →
    fight_loop za_poke zb_poke t_plain none t_plain none fuel 1 1 last rands acc = none := by
  intro fuel
  induction fuel with
  | zero =>
      intro last rands acc _
      rw [fight_loop, if_pos (by decide : (0 : Nat) < 1 ∧ (0 : Nat) < 1)]
  | succ n ih =>
      intro last rands acc hl
      rcases hl with rfl | rfl
      · rw [fight_loop]
        rw [if_pos (by decide : (0 : Nat) < 1 ∧ (0 : Nat) < 1)]
        rw [fight_round_za (rands.headD 0)]
        exact ih zb_poke rands.tail _ (Or.inr rfl)
      · rw [fight_loop]
        rw [if_pos (by decide : (0 : Nat) < 1 ∧ (0 : Nat) < 1)]
        rw [fight_round_zb (rands.headD 0)]
        exact ih za_poke rands.tail _ (Or.inl rfl)

/-- The single encounter between the zero-attack pokemon exhausts any
amount of fuel. -/
theorem inner_za_zb_none (n : Nat) :
    process_fight_with_hp store_z za_poke zb_poke 1 1 [] n = .ok none := by
  show Except.ok ((fight_loop za_poke zb_poke t_plain none t_plain none n 1 1
    zb_poke [] []).map _) = .ok none
  rw [fight_loop_za_zb_none n zb_poke [] [] (Or.inr rfl)]
  rfl

/-- C3 counterexample: `trainer_fight::process_fight` does NOT terminate
on every pair of trainers with non-empty resolved teams — with one
zero-attack pokemon per side, every round of the first encounter deals
zero damage, both HP values stay positive, and no fuel bound suffices:
the match never returns. -/
theorem c3_counterexample : zero_attack_match_never_returns := by
  intro fuel
  cases fuel with
  | zero => rfl
  | succ n =>
      show (trainer_fight_loop store_z trainer_zed trainer_zoe .StrongestAtk .StrongestAtk
        (n + 1) [za_poke] [zb_poke] (some za_poke) (some zb_poke) 1 1
        [FightEvent.ChoosePokemon "Zoe" "Zb", FightEvent.ChoosePokemon "Zed" "Za"]
        [] [] 0).map _ = .ok none
      simp only [trainer_fight_loop]
      rw [if_pos (by decide : (!(List.isEmpty [za_poke]) && !(List.isEmpty [zb_poke])) = true)]
      rw [inner_za_zb_none n]
      rfl

/-- C3 witness: the completed one-pokemon-each match of
`c2_winner_event_missing` performs exactly one single-encounter fight,
within the bound `1 ≤ 1 + 1`. -/
theorem c3_fights_bound_witness :
    trainer_process_fight store_sw trainer_ash trainer_gary
      .StrongestAtk .StrongestAtk [1 / 2] [] 5 =
      .ok (some (⟨"Gary", "Ash",
        [FightEvent.ChoosePokemon "Gary" "Weak",
         FightEvent.ChoosePokemon "Ash" "Strong",
         FightEvent.Hit "Strong" "Weak" 100 0 .Normal,
         FightEvent.Fainted "Weak",
         FightEvent.PokemonWinner "Strong" 100]⟩, 1)) ∧
    1 ≤ trainer_ash.team.length + trainer_gary.team.length :=
  ⟨by rfl, c3_fights_bound store_sw trainer_ash trainer_gary .StrongestAtk .StrongestAtk
    [1 / 2] [] 5 _ 1 (by rfl)⟩

/-- C4 counterexample: against the defense-300 `tank_poke` the defense
multiplier is `1 - (300/100)*0.5 = -0.5`, the damage is `-50`, and the
first `Hit` event records the defender at 60 HP — strictly MORE than its
10 HP before the hit. -/
theorem c4_counterexample :
    process_fight_with_hp store_t atk_poke tank_poke 100 10 [1 / 2, 1 / 2] 5 =
      .ok (some (⟨"Atk", "Tank",
        [FightEvent.Hit "Atk" "Tank" 0 60 .Normal,
         FightEvent.Hit "Tank" "Atk" 200 0 .Normal,
         FightEvent.Fainted "Atk",
         FightEvent.PokemonWinner "Tank" 60]⟩, [])) ∧
    10 < 60 :=
  ⟨by rfl, by decide⟩

/-- C4 witness: the amended monotonicity theorem applied at a concrete
round (defense 0 ≤ 200, draw 0). -/
theorem c4_hit_hp_monotone_witness :
    (0 : ℚ) ≤ 0 ∧ (0 : Nat) ≤ 200 ∧
    hit_hp_left 1 (round_damage 1 (damage_mult_of t_plain none t_plain none)
      (rand_mult_of 0) (defense_mult_of 0)) ≤ 1 :=
  ⟨le_refl 0, by decide,
   c4_hit_hp_monotone t_plain none t_plain none 1 0 1 0 (le_refl 0) (by decide)⟩

/-- C5 counterexample: for a defender primary type strong against the
attacker's secondary type, the engine SUBTRACTS `0.225`
(multiplier `0.775`), while the claim's description of the checks — add
`0.375` when the first type of the pair is strong against the second —
yields `1.375`. -/
theorem c5_counterexample :
    damage_mult_of ty_a (some ty_s) ty_d none = 31 / 40 ∧
    spec_damage_mult ty_a (some ty_s) ty_d none = 11 / 8 ∧
    (31 / 40 : ℚ) ≠ 11 / 8 :=
  ⟨by decide, by decide, by decide⟩

/-- C6: with both endpoint nodes present but NO edge between them,
`is_linked_by` still answers `true`: the generated
`RETURN exists((a)-[:rel]->(b))` query yields one row per matched node
pair whatever the boolean says, and the code only tests whether a row
came back. -/
theorem c6_is_linked_by_without_edge :
    is_linked_by store_no_edge "Pokemon" "name" "Pika" "PokemonType" "name" "Electric"
      "PrimaryType" = true ∧
    edge_exists store_no_edge n_pika_node "PrimaryType" n_electric = false :=
  ⟨by decide, by decide⟩

/-- C7 counterexample: `update` splices the identifier `O'Hara` into the
query verbatim — unsanitized and unquoted — and `delete` emits the
non-numeric identifier `Pika` without quotes; in both cases the
spec-mandated emission differs. -/
theorem c7_counterexample :
    update_query "PokemonType" "name" "O'Hara" "name = 'X'" =
      "MATCH (n:PokemonType) WHERE n.name = O'Hara SET name = 'X'" ∧
    spec_ident_emission "O'Hara" ≠ "O'Hara" ∧
    delete_query "Pokemon" "name" "Pika" =
      "MATCH (n:Pokemon) WHERE n.name = Pika DELETE n;" ∧
    spec_ident_emission "Pika" ≠ "Pika" :=
  ⟨by rfl, by decide, by rfl, by decide⟩

/-- C8 counterexample: a `Pokemon` node that a keyed read DOES return
(one row) but that has no `PrimaryType` edge makes `get_first` fail —
so `get_first` does not error "exactly when" zero rows are returned. -/
theorem c8_counterexample :
    Pokemon.get_first store_mew "Mew" = .error "No primary type found for Pokemon" ∧
    has_matching_node store_mew "Pokemon" "name" "Mew" = true :=
  ⟨by rfl, by decide⟩

/-- C8 witness: on the empty store the keyed read yields zero rows and
`get_first` returns the `"No rows"` (NotFound) error. -/
theorem c8_amended_witness :
    has_matching_node ⟨[], []⟩ "Pokemon" "name" "X" = false ∧
    Pokemon.get_first ⟨[], []⟩ "X" = .error "No rows" :=
  ⟨by decide, (c8_amended ⟨[], []⟩ "X" []).1 (by decide)⟩

/-- C9: a run whose final hit leaves the defender at 0.3 HP — strictly
between 0 and 0.5 — rounds the stored HP to 0 and ends the loop, but the
fainting branch (`def_hp <= 0.0`) is not taken: the log's final (and
only) event is a `Hit`, with no `Fainted` and no `PokemonWinner`. -/
theorem c9_final_hit_no_faint :
    process_fight_with_hp store_t volt_poke aqua_poke 30 30 [1 / 4] 5 =
      .ok (some (⟨"Volt", "Aqua", [FightEvent.Hit "Volt" "Aqua" 29 0 .Normal]⟩, [])) ∧
    ([FightEvent.Hit "Volt" "Aqua" 29 0 .Normal].all
      (fun e => !is_fainted_event e && !is_pokemon_winner_event e)) = true ∧
    is_hit_event (FightEvent.Hit "Volt" "Aqua" 29 0 .Normal) = true :=
  ⟨by rfl, by decide, by decide⟩

/-- C10: on an empty team every non-`Random` strategy returns `None`
(`max_by_key` of an empty iterator, or the `StrongestType` search over
no candidates falling back to it), while `Random` computes
`rand::random::<usize>() % team.len()` with `len = 0` and panics with a
divide-by-zero (modelled as the error value). -/
theorem c10_empty_team (store : GraphStore) (e : Option Pokemon) (r : Nat) :
    FightStrategy.choose_pokemon .StrongestAtk store [] e r = .ok none ∧
    FightStrategy.choose_pokemon .StrongestDef store [] e r = .ok none ∧
    FightStrategy.choose_pokemon .StrongestSum store [] e r = .ok none ∧
    FightStrategy.choose_pokemon .StrongestType store [] e r = .ok none ∧
    FightStrategy.choose_pokemon .Random store [] e r =
      .error "panicked: attempt to calculate the remainder with a divisor of zero" := by
  refine ⟨rfl, rfl, rfl, ?_, rfl⟩
  cases e with
  | none => rfl
  | some p => rfl
